import Mathlib

/-
Verification development for the corrector_de_tareas repository.

The repository audits Canvas LMS course configuration: functions.py holds the
remote client (canvas_request), the rubric/module/quiz/team helpers and the
assignment analyzer (analyze_assignment); helpers.py holds the string
normalizer (clean_string).  All of it is embedded shallowly below: the network
is modelled by an explicit state of fetched responses (CanvasState, a page
list for the paginated client), Python None by Option, an uncaught Python
exception by Except.error, and Python JSON values by the Json inductive.
-/

/-- A JSON value as returned by the Canvas API (response.json() in functions.py). -/
inductive Json where
  | null
  | str (s : String)
  | num (n : Int)
  | bool (b : Bool)
  | arr (elems : List Json)

/-! ## String normalizer: clean_string (helpers.py lines 4-9)

clean_string calls Python stdlib primitives: str.strip, str.lower,
unicodedata.normalize("NFD", _), and two re.sub passes.  The stdlib is
modelled over the Latin-1 repertoire the program actually compares (Spanish
course and module names): lowerTable is the Unicode simple lowercase map for
ASCII and Latin-1 letters, nfdTable the canonical NFD decompositions of the
precomposed lowercase Latin-1 letters; every character outside the tables is
its own lowercase/decomposition.  Combining marks are not word characters in
Python (category Mn is neither alphabetic nor numeric), so the first re.sub
already removes them; the second re.sub removes U+0300 to U+036F. -/

/-- Whitespace stripped by str.strip and matched by the regex class \\s. -/
def pySpace (c : Char) : Bool :=
  c == ' ' || c == '\t' || c == '\n' || c == '\r' || c == '\x0b' || c == '\x0c'

/-- str.strip: drop leading and trailing whitespace. -/
def stripList (l : List Char) : List Char :=
  ((l.dropWhile pySpace).reverse.dropWhile pySpace).reverse

/-- Unicode simple lowercase pairs for ASCII and Latin-1 uppercase letters. -/
def lowerTable : List (Char × Char) :=
  [('A', 'a'), ('B', 'b'), ('C', 'c'), ('D', 'd'), ('E', 'e'), ('F', 'f'),
   ('G', 'g'), ('H', 'h'), ('I', 'i'), ('J', 'j'), ('K', 'k'), ('L', 'l'),
   ('M', 'm'), ('N', 'n'), ('O', 'o'), ('P', 'p'), ('Q', 'q'), ('R', 'r'),
   ('S', 's'), ('T', 't'), ('U', 'u'), ('V', 'v'), ('W', 'w'), ('X', 'x'),
   ('Y', 'y'), ('Z', 'z'),
   ('À', 'à'), ('Á', 'á'), ('Â', 'â'), ('Ã', 'ã'), ('Ä', 'ä'), ('Å', 'å'),
   ('Æ', 'æ'), ('Ç', 'ç'), ('È', 'è'), ('É', 'é'), ('Ê', 'ê'), ('Ë', 'ë'),
   ('Ì', 'ì'), ('Í', 'í'), ('Î', 'î'), ('Ï', 'ï'), ('Ð', 'ð'), ('Ñ', 'ñ'),
   ('Ò', 'ò'), ('Ó', 'ó'), ('Ô', 'ô'), ('Õ', 'õ'), ('Ö', 'ö'), ('Ø', 'ø'),
   ('Ù', 'ù'), ('Ú', 'ú'), ('Û', 'û'), ('Ü', 'ü'), ('Ý', 'ý'), ('Þ', 'þ')]

/-- str.lower on one character. -/
def lowerChar (c : Char) : Char :=
  ((lowerTable.find? (fun q => q.1 == c)).map (fun q => q.2)).getD c

/-- Canonical NFD decompositions of the precomposed lowercase Latin-1 letters. -/
def nfdTable : List (Char × List Char) :=
  [('à', ['a', '̀']), ('á', ['a', '́']), ('â', ['a', '̂']),
   ('ã', ['a', '̃']), ('ä', ['a', '̈']), ('å', ['a', '̊']),
   ('ç', ['c', '̧']), ('è', ['e', '̀']), ('é', ['e', '́']),
   ('ê', ['e', '̂']), ('ë', ['e', '̈']), ('ì', ['i', '̀']),
   ('í', ['i', '́']), ('î', ['i', '̂']), ('ï', ['i', '̈']),
   ('ñ', ['n', '̃']), ('ò', ['o', '̀']), ('ó', ['o', '́']),
   ('ô', ['o', '̂']), ('õ', ['o', '̃']), ('ö', ['o', '̈']),
   ('ù', ['u', '̀']), ('ú', ['u', '́']), ('û', ['u', '̂']),
   ('ü', ['u', '̈']), ('ý', ['y', '́']), ('ÿ', ['y', '̈'])]

/-- unicodedata.normalize("NFD", _) on one character. -/
def nfdChar (c : Char) : List Char :=
  ((nfdTable.find? (fun q => q.1 == c)).map (fun q => q.2)).getD [c]

/-- The regex class \\w (word characters) over the modelled repertoire:
ASCII alphanumerics, underscore, and the Latin-1 letters. -/
def isWordChar (c : Char) : Bool :=
  ('a' ≤ c && c ≤ 'z') || ('A' ≤ c && c ≤ 'Z') || ('0' ≤ c && c ≤ '9') ||
    c == '_' || c == 'ª' || c == 'µ' || c == 'º' ||
    (0xC0 ≤ c.toNat && c.toNat ≤ 0xFF && c.toNat != 0xD7 && c.toNat != 0xF7)

/-- A character kept by re.sub(r"[^\\w\\s.,!?-]", "", _). -/
def allowedChar (c : Char) : Bool :=
  isWordChar c || pySpace c || c == '.' || c == ',' || c == '!' || c == '?' || c == '-'

/-- A character removed by re.sub(r"[\\u0300-\\u036f]", "", _). -/
def isCombining (c : Char) : Bool :=
  0x300 ≤ c.toNat && c.toNat ≤ 0x36F

/-- clean_string (helpers.py lines 4-9) on the character list. -/
def cleanChars (l : List Char) : List Char :=
  ((((stripList l).map lowerChar).flatMap nfdChar).filter allowedChar).filter
    (fun c => !isCombining c)

/-- clean_string (helpers.py lines 4-9). -/
def clean_string (s : String) : String :=
  ⟨cleanChars s.data⟩

/-- The strip stage alone, lifted to String (used to state what a second
clean_string pass does). -/
def stripString (s : String) : String :=
  ⟨stripList s.data⟩

/-! ## Remote client: canvas_request (functions.py lines 7-55)

One HTTP exchange of the while loop is modelled by a PageOutcome: either a
successful response carrying its parsed JSON body and whether a next link is
present in response.links, or a non-success HTTP status, or a transport-level
exception (requests.exceptions.RequestException, caught at line 53).  The
server is the list of outcomes the successive requests of the loop receive.
The outer Except layer is an uncaught Python exception; the inner Option is
the functions own None-on-error result. -/

inductive PageOutcome where
  | success (body : Json) (hasNext : Bool)
  | httpError (status : Nat) (text : String)
  | transportError (msg : String)

/-- str.lower on a whole string (shared with the normalizer model below). -/
def lowerString (s : String) : String :=
  ⟨s.data.map lowerChar⟩

/-- Lines 26-36: the method dispatch; anything but get/post/put/delete prints
and returns None. -/
def supportedMethod (method : String) : Bool :=
  lowerString method == "get" || lowerString method == "post" ||
    lowerString method == "put" || lowerString method == "delete"

/-- The while loop of canvas_request (lines 25-51).  acc is the running
results list.  A pending request with no modelled response left is treated as
a transport failure (caught, returns None).  results.extend(data) on a
non-list body raises TypeError in Python, hence Except.error. -/
def canvasRequestLoop (paginated : Bool) : List Json → List PageOutcome → Except String (Option Json)
  | _, [] => Except.ok none
  | _, PageOutcome.httpError _ _ :: _ => Except.ok none
  | _, PageOutcome.transportError _ :: _ => Except.ok none
  | acc, PageOutcome.success body hasNext :: rest =>
    if paginated then
      match body with
      | Json.arr elems =>
        if hasNext then canvasRequestLoop paginated (acc ++ elems) rest
        else Except.ok (some (Json.arr (acc ++ elems)))
      | _ => Except.error "TypeError: results.extend on a non-list body"
    else Except.ok (some body)

/-- canvas_request (functions.py lines 7-55) over a modelled server. -/
def canvasRequest (method : String) (paginated : Bool) (pages : List PageOutcome) : Except String (Option Json) :=
  if supportedMethod method then canvasRequestLoop paginated [] pages
  else Except.ok none

/-- A well-formed chain of successful pages: every page carries a next link
except the last one. -/
def chainPages : List (List Json) → List PageOutcome
  | [] => []
  | [b] => [PageOutcome.success (Json.arr b) false]
  | b :: rest => PageOutcome.success (Json.arr b) true :: chainPages rest

/-- A run of successful pages that all carry a next link. -/
def goodPages (bodies : List (List Json)) : List PageOutcome :=
  bodies.map (fun b => PageOutcome.success (Json.arr b) true)

/-- A page outcome that makes canvas_request bail out: non-success HTTP
status (line 38) or transport exception (line 53). -/
def isFailurePage : PageOutcome → Bool
  | PageOutcome.httpError _ _ => true
  | PageOutcome.transportError _ => true
  | PageOutcome.success _ _ => false

/-! ## Data model: the remote entities the analyzer fetches

Typed records mirror the JSON fields the source reads.  A field read with
dict.get (which may be absent) is an Option; a field the source reads by
direct subscript on data the API always supplies is plain.  CanvasState holds
what each network fetch of one analysis pass returns; none is a failed fetch
(canvas_request returned None). -/

/-- rubric_settings of an assignment (read at functions.py lines 60-67). -/
structure RubricSettings where
  points_possible : Option Int
  title : Option String

/-- An assignment as fetched from /courses/{id}/assignments. -/
structure Assignment where
  name : Option String
  submission_types : Option (List String)
  allowed_attempts : Option Int
  points_possible : Option Int
  grading_type : Option String
  assignment_group_id : Option Nat
  group_category_id : Option Nat
  rubric_settings : Option RubricSettings
  use_rubric_for_grading : Option Bool
  quiz_id : Option Nat

/-- An assignment group response (functions.py lines 74-80). -/
structure ModuleResp where
  name : Option String
  group_weight : Option Int
  id : Option Nat

/-- The dict built by get_module_name (functions.py lines 76-80). -/
structure ModuleInfo where
  name : Option String
  weight : Option Int
  id : Option Nat

/-- A group category: {id, name}. -/
structure GroupCategory where
  id : Nat
  name : String

/-- A group: {id, name} (named CanvasGroup to avoid the Mathlib name). -/
structure CanvasGroup where
  id : Nat
  name : String

/-- A course user; enrollments is the list of the type field of each
enrollment record (functions.py line 137 reads enrollments[0]["type"]). -/
structure User where
  id : Nat
  name : String
  email : Option String
  enrollments : List String

/-- A group membership; user_id is read with dict.get (line 148); named
CanvasMembership to avoid the Mathlib name. -/
structure CanvasMembership where
  user_id : Option Nat

/-- A quiz response (read at functions.py lines 176-181). -/
structure QuizResp where
  allowed_attempts : Option Int
  time_limit : Option Int
  shuffle_answers : Option Bool
  hide_results : Option String
  show_correct_answers : Option Bool
  question_count : Option Int

/-- The dict built by get_quiz_details (functions.py lines 175-182). -/
structure QuizInfo where
  intentos_permitidos : Option Int
  tiempo_limite : Json
  mezclar_respuestas : Bool
  permitir_que_estudiantes_vean_respuestas : Bool
  mostrar_respuestas_correctas : Option Bool
  cantidad_de_preguntas : Option Int

/-- What the network returns during one analysis pass of one course: one
field per endpoint the analyzer hits, none meaning canvas_request returned
None for that call. -/
structure CanvasState where
  assignmentGroups : Nat → Option ModuleResp
  groupCategories : Option (List GroupCategory)
  groupsOf : Nat → Option (List CanvasGroup)
  users : Option (List User)
  membershipsOf : Nat → Option (List CanvasMembership)
  quizzes : Nat → Option QuizResp

/-- The dict built by get_rubric_details (functions.py lines 58-69).
name_field is none when the key "name" is absent (the no-rubric branch at
line 69 omits it); some none when present with value None. -/
structure RubricDetails where
  has_rubric : Bool
  rubric_points : Option Int
  rubric_used_for_grading : Option Bool
  name_field : Option (Option String)

/-- get_rubric_details (functions.py lines 58-69). -/
def get_rubric_details (assignment : Assignment) : RubricDetails :=
  match assignment.rubric_settings with
  | some rs =>
    { has_rubric := true, rubric_points := rs.points_possible,
      rubric_used_for_grading := assignment.use_rubric_for_grading,
      name_field := some rs.title }
  | none =>
    { has_rubric := false, rubric_points := none,
      rubric_used_for_grading := some false, name_field := none }

/-- get_module_name (functions.py lines 72-82).  A missing
assignment_group_id makes the fetch fail (URL built with None), hence none. -/
def get_module_name (st : CanvasState) (gid : Option Nat) : Option ModuleInfo :=
  match gid with
  | none => none
  | some g =>
    match st.assignmentGroups g with
    | none => none
    | some resp => some { name := resp.name, weight := resp.group_weight, id := resp.id }

/-- The dict built by check_group_categories (functions.py lines 96-105). -/
structure GccCheck where
  equipo_exists : Bool
  equipo_id : Option Nat
  project_exists : Bool
  project_id : Option Nat

/-- check_group_categories (functions.py lines 85-105): none only when the
fetch itself returned None (is None test at line 88). -/
def check_group_categories (st : CanvasState) : Option GccCheck :=
  match st.groupCategories with
  | none => none
  | some gcs =>
    let trabajo := gcs.find? (fun (gc : GroupCategory) => gc.name == "Equipo de trabajo")
    let project := gcs.find? (fun (gc : GroupCategory) => gc.name == "Project Groups")
    some { equipo_exists := trabajo.isSome, equipo_id := trabajo.map (fun gc => gc.id),
           project_exists := project.isSome, project_id := project.map (fun gc => gc.id) }

/-! ## Team roster resolver: check_team_assignments (functions.py lines 108-163)

Python dict/set behaviour is modelled explicitly: student_dict is the pair
list in user order where a later duplicate id would shadow an earlier one on
lookup (dictGet takes the last binding); its key set is the deduplicated id
list; the set difference student_ids - assigned_student_ids is taken in key
order (Python set iteration order is unspecified). -/

/-- The dict returned by check_team_assignments.  The early returns at lines
119 and 126 build a dict without total_students/total_teams, hence the Option
fields. -/
structure TeamReport where
  teams_created : Bool
  all_assigned : Bool
  unassigned_students : List (String × String)
  total_students : Option Nat
  total_teams : Option Nat
  group_memberships : List (String × List String)

/-- The early-return dict of lines 119 and 126. -/
def emptyTeamReport : TeamReport :=
  { teams_created := false, all_assigned := false, unassigned_students := [],
    total_students := none, total_teams := none, group_memberships := [] }

/-- Line 134-138: filter users to those whose first enrollment type contains
"student"; the value is {name, email or "Sin correo"}. -/
def studentPairs (users : List User) : List (Nat × String × String) :=
  users.filterMap (fun u =>
    match u.enrollments with
    | [] => none
    | e :: _ =>
      if e.data.tails.any (fun t => "student".data.isPrefixOf t) then
        some (u.id, u.name, u.email.getD "Sin correo")
      else none)

/-- Python dict key test: uid in student_dict. -/
def dictHas (sd : List (Nat × String × String)) (k : Nat) : Bool :=
  sd.any (fun p => p.1 == k)

/-- Python dict lookup: the last binding of a key wins. -/
def dictGet (sd : List (Nat × String × String)) (k : Nat) : Option (String × String) :=
  (sd.reverse.find? (fun p => p.1 == k)).map (fun p => p.2)

/-- Python dict key list (each key once, in first-insertion order). -/
def dictKeys (sd : List (Nat × String × String)) : List Nat :=
  (sd.map (fun p => p.1)).dedup

/-- Lines 145-148: ids collected into assigned_student_ids, walking the
groups in order; a fetch failure or an empty membership list contributes
nothing (the if memberships guard at line 147). -/
def assignedIds (st : CanvasState) (groups : List CanvasGroup)
    (sd : List (Nat × String × String)) : List Nat :=
  groups.foldl (fun acc g =>
    match st.membershipsOf g.id with
    | some ms =>
      if ms.isEmpty then acc
      else acc ++ (ms.filterMap (fun mem => mem.user_id)).filter (fun uid => dictHas sd uid)
    | none => acc) []

/-- Line 149: the member names recorded under a group name, "Desconocido"
for a user id that is not a student (or absent). -/
def membershipNames (sd : List (Nat × String × String)) (ms : List CanvasMembership) : List String :=
  ms.map (fun mem =>
    match mem.user_id with
    | some uid =>
      match dictGet sd uid with
      | some v => v.1
      | none => "Desconocido"
    | none => "Desconocido")

/-- Lines 145-149: the group_memberships dict, one entry per group whose
membership fetch returned a non-empty list. -/
def groupMembershipsOf (st : CanvasState) (groups : List CanvasGroup)
    (sd : List (Nat × String × String)) : List (String × List String) :=
  groups.foldl (fun acc g =>
    match st.membershipsOf g.id with
    | some ms =>
      if ms.isEmpty then acc else acc ++ [(g.name, membershipNames sd ms)]
    | none => acc) []

/-- Line 152: student_ids - assigned_student_ids, in key order. -/
def unassignedIds (st : CanvasState) (groups : List CanvasGroup)
    (sd : List (Nat × String × String)) : List Nat :=
  (dictKeys sd).filter (fun uid => !(assignedIds st groups sd).contains uid)

/-- check_team_assignments (functions.py lines 108-163).  Note the truthiness
guards: a fetch that returns None or an empty list fails the if not tests at
lines 114, 125 and 130. -/
def check_team_assignments (st : CanvasState) : Option TeamReport :=
  match st.groupCategories with
  | none => none
  | some gcs =>
    if gcs.isEmpty then none
    else
      match gcs.find? (fun (gc : GroupCategory) => gc.name == "Equipo de trabajo") with
      | none => some emptyTeamReport
      | some equipo =>
        match st.groupsOf equipo.id with
        | none => some emptyTeamReport
        | some groups =>
          if groups.isEmpty then some emptyTeamReport
          else
            match st.users with
            | none => none
            | some users =>
              if users.isEmpty then none
              else
                let sd := studentPairs users
                let unassigned := unassignedIds st groups sd
                some { teams_created := true,
                       all_assigned := unassigned.isEmpty,
                       unassigned_students := unassigned.filterMap (fun uid => dictGet sd uid),
                       total_students := some (dictKeys sd).length,
                       total_teams := some groups.length,
                       group_memberships := groupMembershipsOf st groups sd }

/-- get_quiz_details (functions.py lines 166-182). -/
def get_quiz_details (st : CanvasState) (quiz_id : Nat) : Option QuizInfo :=
  match st.quizzes quiz_id with
  | none => none
  | some q =>
    some { intentos_permitidos := q.allowed_attempts,
           tiempo_limite :=
             match q.time_limit with
             | some t => Json.num t
             | none => Json.str "Sin límite",
           mezclar_respuestas := q.shuffle_answers.getD false,
           permitir_que_estudiantes_vean_respuestas := !(q.hide_results == some "always"),
           mostrar_respuestas_correctas := q.show_correct_answers,
           cantidad_de_preguntas := q.question_count }

/-! ## Assignment analyzer: analyze_assignment (functions.py lines 185-356)

A checklist row is (label, actual value shown, status glyph), the entry the
Python result dict holds under each key.  The result dict is an insertion
ordered mapping, hence a list of rows.  An uncaught Python exception
(subscripting None, int(None), None.strip()) is Except.error. -/

/-- One checklist row: requirement label, actual value, status glyph. -/
abbrev Row : Type := String × Json × String

/-- The pass/fail glyph of a comparison. -/
def glyph (b : Bool) : String := if b then "✅" else "🟥"

/-- One entry of the rules dict (functions.py lines 199-226); absent keys
are none (dict.get on a rule dict). -/
structure RuleSet where
  submission_types : Option (List String) := none
  allowed_attempts : Option Int := none
  points_possible : Option Int := none
  module_weight : Option Int := none
  discussion_type : Option String := none
  time_limit : Option Int := none
  question_count : Option Int := none
deriving DecidableEq

/-- rules.get(assignment_type, {}) (functions.py lines 199-228); the
teamwork module_weight depends on is_massive (line 224). -/
def rulesGet (is_massive : Bool) (assignment_type : String) : RuleSet :=
  if assignment_type == "forum" then
    { submission_types := some ["discussion_topic"], points_possible := some 100,
      module_weight := some 20, discussion_type := some "threaded" }
  else if assignment_type == "finalwork" then
    { submission_types := some ["online_upload"], allowed_attempts := some 2,
      points_possible := some 100, module_weight := some 50 }
  else if assignment_type == "quiz_final" then
    { submission_types := some ["online_quiz"], allowed_attempts := some 1,
      points_possible := some 30, module_weight := some 30,
      time_limit := some 90, question_count := some 30 }
  else if assignment_type == "teamwork" then
    { submission_types := some ["online_upload"], allowed_attempts := some 2,
      points_possible := some 100,
      module_weight := some (if !is_massive then 30 else 50) }
  else {}

/-- Line 191-192: if the course is massive and the task is finalwork, treat
it as quiz_final. -/
def effectiveCategory (is_massive : Bool) (assignment_type : String) : String :=
  if is_massive && assignment_type == "finalwork" then "quiz_final" else assignment_type

/-- Lines 232-234: the quiz detail fetch, performed only for quiz_final
assignments carrying a quiz_id. -/
def quizDetailsOf (st : CanvasState) (assignment : Assignment)
    (assignment_type : String) : Option QuizInfo :=
  if assignment_type == "quiz_final" && assignment.quiz_id.isSome then
    match assignment.quiz_id with
    | some qid => get_quiz_details st qid
    | none => none
  else none

/-- Python truthiness of an optional integer (0 and None are falsy). -/
def optNatTruthy : Option Nat → Bool
  | some n => n != 0
  | none => false

/-- Python truthiness of an optional bool. -/
def optBoolTruthy : Option Bool → Bool
  | some b => b
  | none => false

/-- The displayed value of rubric_details.get("name", "Sin rúbrica"). -/
def rubricValueName : Option (Option String) → Json
  | none => Json.str "Sin rúbrica"
  | some none => Json.null
  | some (some t) => Json.str t

/-- An optional integer as the JSON value Python would display. -/
def jsonOfOptInt : Option Int → Json
  | none => Json.null
  | some n => Json.num n

/-- The submission_types value as displayed. -/
def jsonOfSub : Option (List String) → Json
  | none => Json.null
  | some l => Json.arr (l.map Json.str)

/-- Lines 237-251: the three rubric rows, on every category except
quiz_final. -/
def rubricRows (rd : RubricDetails) (assignment_type : String) : List Row :=
  if assignment_type != "quiz_final" then
    [("Tiene rúbrica", rubricValueName rd.name_field, glyph rd.has_rubric),
     ("Puntos rúbrica",
      (if rd.has_rubric then jsonOfOptInt rd.rubric_points else Json.str "N/A"),
      glyph (rd.rubric_points == some 100)),
     ("Usa rúbrica para calificar",
      Json.str (if optBoolTruthy rd.rubric_used_for_grading then "Sí" else "No"),
      glyph (optBoolTruthy rd.rubric_used_for_grading))]
  else []

/-- Lines 254-259: the delivery type row. -/
def deliveryRow (a : Assignment) (r : RuleSet) : Row :=
  ("Tipo de entrega", jsonOfSub a.submission_types,
   glyph (a.submission_types == r.submission_types))

/-- The displayed value of the attempts row (str(None) is "None"). -/
def attemptValue (a : Assignment) : Json :=
  match a.allowed_attempts with
  | some n => if n == -1 then Json.str "Ilimitado" else Json.str (toString n)
  | none => Json.str "None"

/-- Lines 261-267: the attempts row, absent for forum and quiz_final. -/
def attemptRows (a : Assignment) (r : RuleSet) (assignment_type : String) : List Row :=
  if assignment_type != "forum" && assignment_type != "quiz_final" then
    [("Intentos permitidos", attemptValue a,
      glyph (a.allowed_attempts == r.allowed_attempts))]
  else []

/-- Lines 269-286: grading type, points, module weight and module name rows,
once the failable extractions (int(points), module_info subscripts,
clean_string on the names) have succeeded with p, w, mn, an. -/
def midRows (a : Assignment) (r : RuleSet) (p w : Int) (mn an : String) : List Row :=
  [("Tipo de calificación",
    Json.str (if a.grading_type == some "points" then "Puntos" else "Otro"),
    glyph (a.grading_type == some "points")),
   ("Puntos posibles", Json.str (toString p), glyph (a.points_possible == r.points_possible)),
   ("Ponderación", Json.str (toString w ++ "%"), glyph (some w == r.module_weight)),
   ("Módulo", Json.str mn, glyph (clean_string mn == clean_string an))]

/-- Lines 293-321: the six teamwork rows. -/
def teamRows (a : Assignment) (team_options : TeamReport) (gcc : GccCheck) : List Row :=
  let unassigned_list := team_options.unassigned_students
  let unassigned_text :=
    if !unassigned_list.isEmpty then
      String.intercalate ", "
        (unassigned_list.map (fun s => s.1 ++ " (" ++ s.2 ++ ")"))
    else "Todos asignados"
  [("Es trabajo en grupo",
    Json.str (if optNatTruthy a.group_category_id then "Sí" else "No"),
    glyph (optNatTruthy a.group_category_id)),
   ("Existe Equipo de trabajo",
    Json.str (if gcc.equipo_exists then "Sí" else "No"),
    glyph gcc.equipo_exists),
   ("Existe Project Groups",
    Json.str (if !gcc.project_exists then "Sí" else "No"),
    glyph (!gcc.project_exists)),
   ("Equipos creados",
    Json.str (if team_options.teams_created then
        toString (team_options.total_teams.getD 0) ++ " equipos"
      else "No"),
    glyph team_options.teams_created),
   ("Grupos",
    Json.str (if !team_options.group_memberships.isEmpty then
        String.intercalate ", " (team_options.group_memberships.map (fun g => g.1))
      else "No hay grupos"),
    glyph (!team_options.group_memberships.isEmpty)),
   ("Alumnos sin asignar", Json.str unassigned_text, glyph team_options.all_assigned)]

/-- Comparison of the displayed tiempo_limite value against the rule entry
(line 336: int-or-"Sin límite" compared with the expected number, None when
the rule has no time_limit). -/
def jsonEqOptInt (j : Json) (o : Option Int) : Bool :=
  match o with
  | some t =>
    match j with
    | Json.num n => n == t
    | _ => false
  | none =>
    match j with
    | Json.null => true
    | _ => false

/-- Lines 324-350: the six quiz rows, present only when the category is
quiz_final and the quiz detail fetch succeeded. -/
def quizRowsOf (qd : Option QuizInfo) (r : RuleSet) (assignment_type : String) : List Row :=
  if assignment_type == "quiz_final" then
    match qd with
    | some q =>
      [("Numero de preguntas", jsonOfOptInt q.cantidad_de_preguntas,
        glyph (q.cantidad_de_preguntas == r.question_count)),
       ("Intentos permitidos", jsonOfOptInt q.intentos_permitidos,
        glyph (q.intentos_permitidos == r.allowed_attempts)),
       ("Límite de tiempo (min)", q.tiempo_limite,
        glyph (jsonEqOptInt q.tiempo_limite r.time_limit)),
       ("Mezclar respuestas",
        Json.str (if q.mezclar_respuestas then "Sí" else "No"),
        glyph q.mezclar_respuestas),
       ("Permitir que estudiantes vean respuestas",
        Json.str (if q.permitir_que_estudiantes_vean_respuestas then "Sí" else "No"),
        glyph q.permitir_que_estudiantes_vean_respuestas),
       ("Mostrar respuestas correctas",
        Json.str (if q.mostrar_respuestas_correctas == some true then "Sí" else "No"),
        glyph (q.mostrar_respuestas_correctas == some true))]
    | none => []
  else []

/-- The body of analyze_assignment after the line 191-192 remap, over the
already remapped assignment_type.  The failable Python evaluations are
checked in source evaluation order: int(points_possible) at line 275,
module_info["weight"] and int on it at lines 279-280, module_info["name"]
and the clean_string calls at lines 283-284, and in the teamwork branch the
subscripts on check_team_assignments and check_group_categories results
(lines 293 and 302). -/
def analyzeCore (st : CanvasState) (assignment : Assignment)
    (assignment_type : String) (is_massive : Bool) : Except String (List Row) :=
  let rubric_details := get_rubric_details assignment
  let module_info := get_module_name st assignment.assignment_group_id
  let specific_rules := rulesGet is_massive assignment_type
  let quiz_details := quizDetailsOf st assignment assignment_type
  match assignment.points_possible with
  | none => Except.error "TypeError: int() argument is None (points_possible)"
  | some p =>
    match module_info with
    | none => Except.error "TypeError: NoneType is not subscriptable (module_info)"
    | some mi =>
      match mi.weight with
      | none => Except.error "TypeError: int() argument is None (module weight)"
      | some w =>
        match mi.name with
        | none => Except.error "AttributeError: NoneType has no attribute strip (module name)"
        | some mn =>
          match assignment.name with
          | none => Except.error "AttributeError: NoneType has no attribute strip (assignment name)"
          | some an =>
            let head := rubricRows rubric_details assignment_type ++
              [deliveryRow assignment specific_rules] ++
              attemptRows assignment specific_rules assignment_type ++
              midRows assignment specific_rules p w mn an
            if assignment_type == "teamwork" then
              match check_team_assignments st with
              | none => Except.error "TypeError: NoneType is not subscriptable (team_options)"
              | some team_options =>
                match check_group_categories st with
                | none => Except.error "TypeError: NoneType is not subscriptable (group_categories_check)"
                | some gcc =>
                  Except.ok (head ++ teamRows assignment team_options gcc ++
                    quizRowsOf quiz_details specific_rules assignment_type)
            else
              Except.ok (head ++ quizRowsOf quiz_details specific_rules assignment_type)

/-- analyze_assignment (functions.py lines 185-356) up to the final split of
the result dict into (detalles, third_column): the ordered checklist. -/
def analyzeRows (st : CanvasState) (assignment : Assignment)
    (assignment_type : String) (is_massive : Bool) : Except String (List Row) :=
  analyzeCore st assignment (effectiveCategory is_massive assignment_type) is_massive

/-- analyze_assignment (functions.py lines 185-356): the returned pair
(detalles, third_column) of lines 353-356. -/
def analyze_assignment (st : CanvasState) (assignment : Assignment)
    (assignment_type : String) (is_massive : Bool) :
    Except String (List (String × Json) × List String) :=
  (analyzeRows st assignment assignment_type is_massive).map
    (fun rows => (rows.map (fun (r : Row) => (r.1, r.2.1)), rows.map (fun (r : Row) => r.2.2)))

/-- Modelled from the spec (display contract): the fixed checklist key order
per (remapped) category; quizPresent records whether the quiz detail rows
are present. -/
def specKeyOrder (assignment_type : String) (quizPresent : Bool) : List String :=
  (if assignment_type != "quiz_final" then
    ["Tiene rúbrica", "Puntos rúbrica", "Usa rúbrica para calificar"] else []) ++
  ["Tipo de entrega"] ++
  (if assignment_type != "forum" && assignment_type != "quiz_final" then
    ["Intentos permitidos"] else []) ++
  ["Tipo de calificación", "Puntos posibles", "Ponderación", "Módulo"] ++
  (if assignment_type == "teamwork" then
    ["Es trabajo en grupo", "Existe Equipo de trabajo", "Existe Project Groups",
     "Equipos creados", "Grupos", "Alumnos sin asignar"] else []) ++
  (if assignment_type == "quiz_final" && quizPresent then
    ["Numero de preguntas", "Intentos permitidos", "Límite de tiempo (min)",
     "Mezclar respuestas", "Permitir que estudiantes vean respuestas",
     "Mostrar respuestas correctas"] else [])

/-- The key of a row. -/
def rowKey (r : Row) : String := r.1

/-! ## Claim theorems -/

/-- The rows of a successful analysis (empty on error); used to state closed
facts about concrete runs. -/
def okRows : Except String (List Row) → List Row
  | Except.ok rows => rows
  | Except.error _ => []

/-- A fetched state on which a forum analysis succeeds. -/
def wSt : CanvasState :=
  { assignmentGroups := fun _ =>
      some { name := some "Foro Académico", group_weight := some 20, id := some 1 },
    groupCategories := none,
    groupsOf := fun _ => none,
    users := none,
    membershipsOf := fun _ => none,
    quizzes := fun _ => none }

/-- A forum assignment with all fields present. -/
def wA : Assignment :=
  { name := some "Foro Académico",
    submission_types := some ["discussion_topic"],
    allowed_attempts := some (-1),
    points_possible := some 100,
    grading_type := some "points",
    assignment_group_id := some 7,
    group_category_id := none,
    rubric_settings := some { points_possible := some 100, title := some "Rubrica foro" },
    use_rubric_for_grading := some true,
    quiz_id := none }

/-- wA without a rubric (rubric_settings absent). -/
def wA2 : Assignment :=
  { wA with rubric_settings := none, use_rubric_for_grading := none }

/-- wSt with a failing assignment-group fetch (module lookup returns None). -/
def c2St : CanvasState :=
  { wSt with assignmentGroups := fun _ => none }

/-- wA with submission_types and allowed_attempts absent. -/
def c3A : Assignment :=
  { wA with submission_types := none, allowed_attempts := none }

/-- Team fetches all succeed but the fetched user list is empty. -/
def c6St : CanvasState :=
  { assignmentGroups := fun _ => none,
    groupCategories := some [⟨1, "Equipo de trabajo"⟩],
    groupsOf := fun _ => some [⟨10, "Equipo 1"⟩],
    users := some [],
    membershipsOf := fun _ => some [],
    quizzes := fun _ => none }

/-- c6St with a non-empty user list holding no student. -/
def c6wSt : CanvasState :=
  { c6St with users := some [⟨9, "Docente", some "doc@uni.cl", ["TeacherEnrollment"]⟩] }

/-- One student and one teacher; the teacher also sits in the group
membership list. -/
def c7St : CanvasState :=
  { assignmentGroups := fun _ => none,
    groupCategories := some [⟨5, "Equipo de trabajo"⟩],
    groupsOf := fun _ => some [⟨10, "Equipo 1"⟩],
    users := some [⟨1, "Alumna", some "al@uni.cl", ["student"]⟩,
                   ⟨2, "Docente", some "doc@uni.cl", ["teacher"]⟩],
    membershipsOf := fun i => if i == 10 then some [⟨some 1⟩, ⟨some 2⟩] else none,
    quizzes := fun _ => none }

/-- A state for a quiz_final analysis whose quiz detail fetch fails. -/
def c9St : CanvasState :=
  { assignmentGroups := fun _ => some ⟨some "Cuestionario Final", some 30, some 2⟩,
    groupCategories := none,
    groupsOf := fun _ => none,
    users := none,
    membershipsOf := fun _ => none,
    quizzes := fun _ => none }

/-- A quiz_final assignment carrying a quiz_id. -/
def c9A : Assignment :=
  { name := some "Cuestionario Final",
    submission_types := some ["online_quiz"],
    allowed_attempts := none,
    points_possible := some 30,
    grading_type := some "points",
    assignment_group_id := some 2,
    group_category_id := none,
    rubric_settings := none,
    use_rubric_for_grading := none,
    quiz_id := some 77 }

/-- c9St with a successful quiz detail fetch. -/
def c9StQ : CanvasState :=
  { c9St with quizzes := fun _ => some ⟨some 1, some 90, some true, none, some true, some 30⟩ }


/-! ## Theorems -/

theorem canvasRequestLoop_chain (bodies : List (List Json)) (b : List Json) :
    ∀ acc : List Json,
      canvasRequestLoop true acc (chainPages (b :: bodies)) =
        Except.ok (some (Json.arr (acc ++ (b :: bodies).flatten))) := by
  induction bodies generalizing b with
  | nil => intro acc; simp [chainPages, canvasRequestLoop]
  | cons b2 rest ih =>
    intro acc
    simp only [chainPages, canvasRequestLoop, if_pos, List.flatten]
    rw [ih b2 (acc ++ b)]
    simp [List.append_assoc]

theorem canvasRequestLoop_failure (bad : PageOutcome) (rest : List PageOutcome)
    (hbad : isFailurePage bad = true) (bodies : List (List Json)) :
    ∀ acc : List Json,
      canvasRequestLoop true acc (goodPages bodies ++ bad :: rest) = Except.ok none := by
  induction bodies with
  | nil =>
    intro acc
    cases bad with
    | success body hasNext => simp [isFailurePage] at hbad
    | httpError s t => simp [goodPages, canvasRequestLoop]
    | transportError m => simp [goodPages, canvasRequestLoop]
  | cons b rest2 ih =>
    intro acc
    simp only [goodPages, List.map_cons, List.cons_append, canvasRequestLoop, if_pos]
    exact ih (acc ++ b)

theorem lowerTable_range_fresh :
    ∀ p ∈ lowerTable, lowerTable.find? (fun q => q.1 == p.2) = none := by decide

theorem nfdTable_out_fresh :
    ∀ p ∈ nfdTable, ∀ d ∈ p.2,
      lowerTable.find? (fun q => q.1 == d) = none ∧
        nfdTable.find? (fun q => q.1 == d) = none := by decide

theorem lowerChar_fresh (c : Char) :
    lowerTable.find? (fun q => q.1 == lowerChar c) = none := by
  unfold lowerChar
  cases h : lowerTable.find? (fun q => q.1 == c) with
  | none => simp [h]
  | some p =>
    have hp : p ∈ lowerTable := List.mem_of_find?_eq_some h
    simpa [h] using lowerTable_range_fresh p hp

theorem lowerChar_eq_of_fresh (d : Char)
    (h : lowerTable.find? (fun q => q.1 == d) = none) : lowerChar d = d := by
  unfold lowerChar
  simp [h]

theorem nfdChar_eq_of_fresh (d : Char)
    (h : nfdTable.find? (fun q => q.1 == d) = none) : nfdChar d = [d] := by
  unfold nfdChar
  simp [h]

theorem nfdChar_lowerChar_fresh (c d : Char) (hd : d ∈ nfdChar (lowerChar c)) :
    lowerTable.find? (fun q => q.1 == d) = none ∧
      nfdTable.find? (fun q => q.1 == d) = none := by
  have hfresh := lowerChar_fresh c
  unfold nfdChar at hd
  cases h : nfdTable.find? (fun q => q.1 == lowerChar c) with
  | none =>
    rw [h] at hd
    simp at hd
    subst hd
    exact ⟨hfresh, h⟩
  | some p =>
    rw [h] at hd
    simp at hd
    have hp : p ∈ nfdTable := List.mem_of_find?_eq_some h
    exact nfdTable_out_fresh p hp d hd

theorem mem_of_mem_dropWhile {l : List Char} {p : Char → Bool} {x : Char}
    (h : x ∈ l.dropWhile p) : x ∈ l := by
  induction l with
  | nil => simp at h
  | cons a t ih =>
    rw [List.dropWhile_cons] at h
    by_cases hp : p a = true
    · simp only [hp, if_pos rfl] at h
      exact List.mem_cons_of_mem a (ih h)
    · simp only [hp] at h
      simpa using h

theorem mem_of_mem_stripList {l : List Char} {x : Char} (h : x ∈ stripList l) :
    x ∈ l := by
  unfold stripList at h
  rw [List.mem_reverse] at h
  have h2 := mem_of_mem_dropWhile h
  rw [List.mem_reverse] at h2
  exact mem_of_mem_dropWhile h2

theorem cleanChars_chars {l : List Char} {d : Char} (h : d ∈ cleanChars l) :
    lowerChar d = d ∧ nfdChar d = [d] ∧ allowedChar d = true ∧ isCombining d = false := by
  unfold cleanChars at h
  rw [List.mem_filter] at h
  obtain ⟨h1, hcomb⟩ := h
  rw [List.mem_filter] at h1
  obtain ⟨h2, hallow⟩ := h1
  rw [List.mem_flatMap] at h2
  obtain ⟨a, ha, hd⟩ := h2
  rw [List.mem_map] at ha
  obtain ⟨c, _, rfl⟩ := ha
  obtain ⟨hl, hn⟩ := nfdChar_lowerChar_fresh c d hd
  refine ⟨lowerChar_eq_of_fresh d hl, nfdChar_eq_of_fresh d hn, hallow, ?_⟩
  simpa using hcomb

theorem listMapIdOn {l : List Char} {f : Char → Char} (h : ∀ x ∈ l, f x = x) :
    l.map f = l := by
  induction l with
  | nil => rfl
  | cons a t ih =>
    simp only [List.map_cons]
    rw [h a (List.mem_cons_self a t), ih (fun x hx => h x (List.mem_cons_of_mem a hx))]

theorem listFlatMapIdOn {l : List Char} {f : Char → List Char}
    (h : ∀ x ∈ l, f x = [x]) : l.flatMap f = l := by
  induction l with
  | nil => rfl
  | cons a t ih =>
    rw [List.flatMap_cons, h a (List.mem_cons_self a t),
      ih (fun x hx => h x (List.mem_cons_of_mem a hx))]
    rfl

theorem cleanChars_fixed (y : List Char)
    (hall : ∀ x ∈ y,
      lowerChar x = x ∧ nfdChar x = [x] ∧ allowedChar x = true ∧ isCombining x = false) :
    cleanChars y = stripList y := by
  have hmem : ∀ x ∈ stripList y,
      lowerChar x = x ∧ nfdChar x = [x] ∧ allowedChar x = true ∧ isCombining x = false :=
    fun x hx => hall x (mem_of_mem_stripList hx)
  unfold cleanChars
  rw [listMapIdOn (fun x hx => (hmem x hx).1)]
  rw [listFlatMapIdOn (fun x hx => (hmem x hx).2.1)]
  rw [List.filter_eq_self.mpr (fun x hx => (hmem x hx).2.2.1)]
  rw [List.filter_eq_self.mpr (fun x hx => by simp [(hmem x hx).2.2.2])]

theorem cleanChars_of_clean (l : List Char) :
    cleanChars (cleanChars l) = stripList (cleanChars l) :=
  cleanChars_fixed (cleanChars l) (fun _ hx => cleanChars_chars hx)

theorem rubricRows_keys (rd : RubricDetails) (t : String) :
    (rubricRows rd t).map rowKey =
      if t != "quiz_final" then
        ["Tiene rúbrica", "Puntos rúbrica", "Usa rúbrica para calificar"]
      else [] := by
  unfold rubricRows
  by_cases h : (t != "quiz_final") = true
  · simp [h, rowKey]
  · simp [eq_false_of_ne_true h, rowKey]

theorem attemptRows_keys (a : Assignment) (r : RuleSet) (t : String) :
    (attemptRows a r t).map rowKey =
      if t != "forum" && t != "quiz_final" then ["Intentos permitidos"] else [] := by
  unfold attemptRows
  by_cases h : (t != "forum" && t != "quiz_final") = true
  · simp [h, rowKey]
  · simp [eq_false_of_ne_true h, rowKey]

theorem midRows_keys (a : Assignment) (r : RuleSet) (p w : Int) (mn an : String) :
    (midRows a r p w mn an).map rowKey =
      ["Tipo de calificación", "Puntos posibles", "Ponderación", "Módulo"] := rfl

theorem teamRows_keys (a : Assignment) (to_ : TeamReport) (gcc : GccCheck) :
    (teamRows a to_ gcc).map rowKey =
      ["Es trabajo en grupo", "Existe Equipo de trabajo", "Existe Project Groups",
       "Equipos creados", "Grupos", "Alumnos sin asignar"] := rfl

theorem quizRowsOf_keys (qd : Option QuizInfo) (r : RuleSet) (t : String) :
    (quizRowsOf qd r t).map rowKey =
      if t == "quiz_final" && qd.isSome then
        ["Numero de preguntas", "Intentos permitidos", "Límite de tiempo (min)",
         "Mezclar respuestas", "Permitir que estudiantes vean respuestas",
         "Mostrar respuestas correctas"]
      else [] := by
  unfold quizRowsOf
  by_cases h : (t == "quiz_final") = true
  · cases qd with
    | none => simp [h]
    | some q => simp [h, rowKey]
  · simp [eq_false_of_ne_true h]

theorem analyzeCore_ok_inv {st : CanvasState} {a : Assignment} {t : String}
    {m : Bool} {rows : List Row} (h : analyzeCore st a t m = Except.ok rows) :
    ∃ p mi w mn an,
      a.points_possible = some p ∧
      get_module_name st a.assignment_group_id = some mi ∧
      mi.weight = some w ∧ mi.name = some mn ∧ a.name = some an ∧
      ((t == "teamwork") = true →
        ∃ team_options gcc,
          check_team_assignments st = some team_options ∧
          check_group_categories st = some gcc ∧
          rows = rubricRows (get_rubric_details a) t ++
            [deliveryRow a (rulesGet m t)] ++
            attemptRows a (rulesGet m t) t ++
            midRows a (rulesGet m t) p w mn an ++
            teamRows a team_options gcc ++
            quizRowsOf (quizDetailsOf st a t) (rulesGet m t) t) ∧
      ((t == "teamwork") = false →
        rows = rubricRows (get_rubric_details a) t ++
          [deliveryRow a (rulesGet m t)] ++
          attemptRows a (rulesGet m t) t ++
          midRows a (rulesGet m t) p w mn an ++
          quizRowsOf (quizDetailsOf st a t) (rulesGet m t) t) := by
  unfold analyzeCore at h
  cases hp : a.points_possible with
  | none => simp only [hp] at h; exact Except.noConfusion h
  | some p =>
  simp only [hp] at h
  cases hmi : get_module_name st a.assignment_group_id with
  | none => simp only [hmi] at h; exact Except.noConfusion h
  | some mi =>
  simp only [hmi] at h
  cases hw : mi.weight with
  | none => simp only [hw] at h; exact Except.noConfusion h
  | some w =>
  simp only [hw] at h
  cases hmn : mi.name with
  | none => simp only [hmn] at h; exact Except.noConfusion h
  | some mn =>
  simp only [hmn] at h
  cases han : a.name with
  | none => simp only [han] at h; exact Except.noConfusion h
  | some an =>
  simp only [han] at h
  refine ⟨p, mi, w, mn, an, rfl, rfl, hw, hmn, rfl, ?_, ?_⟩
  · intro ht
    rw [if_pos ht] at h
    cases hto : check_team_assignments st with
    | none => simp only [hto] at h; exact Except.noConfusion h
    | some team_options =>
    simp only [hto] at h
    cases hgcc : check_group_categories st with
    | none => simp only [hgcc] at h; exact Except.noConfusion h
    | some gcc =>
    simp only [hgcc] at h
    refine ⟨team_options, gcc, rfl, rfl, ?_⟩
    have hbig := Except.ok.inj h
    rw [← hbig]
  · intro ht
    rw [if_neg (by simp [ht])] at h
    have hbig := Except.ok.inj h
    rw [← hbig]

theorem analyzeCore_keys {st : CanvasState} {a : Assignment} {t : String}
    {m : Bool} {rows : List Row} (h : analyzeCore st a t m = Except.ok rows) :
    rows.map rowKey = specKeyOrder t (quizDetailsOf st a t).isSome := by
  obtain ⟨p, mi, w, mn, an, hp, hmi, hw, hmn, han, hteam, hnot⟩ := analyzeCore_ok_inv h
  by_cases ht : (t == "teamwork") = true
  · obtain ⟨to_, gcc, hto, hgcc, hrows⟩ := hteam ht
    have ht2 : t = "teamwork" := by simpa using ht
    subst ht2
    subst hrows
    simp [List.map_append, rubricRows_keys, attemptRows_keys, midRows_keys,
      teamRows_keys, quizRowsOf_keys, specKeyOrder, rowKey, deliveryRow]
  · have hrows := hnot (eq_false_of_ne_true ht)
    subst hrows
    simp only [List.map_append, rubricRows_keys, attemptRows_keys, midRows_keys,
      teamRows_keys, quizRowsOf_keys, specKeyOrder, eq_false_of_ne_true ht,
      List.map_cons, List.map_nil]
    simp [rowKey, deliveryRow]

theorem analyzeCore_ok_of (st : CanvasState) (a : Assignment) (t : String) (m : Bool)
    {p : Int} {mi : ModuleInfo} {w : Int} {mn an : String}
    (hp : a.points_possible = some p)
    (hmi : get_module_name st a.assignment_group_id = some mi)
    (hw : mi.weight = some w) (hmn : mi.name = some mn) (han : a.name = some an)
    (hteam : (t == "teamwork") = true →
      (check_team_assignments st).isSome ∧ (check_group_categories st).isSome) :
    ∃ rows, analyzeCore st a t m = Except.ok rows := by
  unfold analyzeCore
  simp only [hp, hmi, hw, hmn, han]
  by_cases ht : (t == "teamwork") = true
  · rw [if_pos ht]
    obtain ⟨h1, h2⟩ := hteam ht
    cases hto : check_team_assignments st with
    | none => rw [hto] at h1; exact absurd h1 (by simp)
    | some to_ =>
      cases hgcc : check_group_categories st with
      | none => rw [hgcc] at h2; exact absurd h2 (by simp)
      | some gcc =>
        exact ⟨rubricRows (get_rubric_details a) t ++ [deliveryRow a (rulesGet m t)] ++
          attemptRows a (rulesGet m t) t ++ midRows a (rulesGet m t) p w mn an ++
          teamRows a to_ gcc ++ quizRowsOf (quizDetailsOf st a t) (rulesGet m t) t, rfl⟩
  · rw [if_neg ht]
    exact ⟨_, rfl⟩

/-- C1: on a massive course, analyzing a finalwork assignment is identical to
analyzing it as quiz_final (the remap at functions.py lines 191-192 happens
before any rule lookup, rubric/module resolution or category branching), the
quiz_final rule set is exactly the listed one (submission_types
["online_quiz"], allowed_attempts 1, points_possible 30, module_weight 30,
time_limit 90, question_count 30), and it differs from the finalwork rule
set, which is therefore never applied. -/
theorem claim_C1 :
    (∀ (st : CanvasState) (a : Assignment),
        analyzeRows st a "finalwork" true = analyzeRows st a "quiz_final" true) ∧
      rulesGet true "quiz_final" =
        { submission_types := some ["online_quiz"], allowed_attempts := some 1,
          points_possible := some 30, module_weight := some 30,
          time_limit := some 90, question_count := some 30 } ∧
      rulesGet true "quiz_final" ≠ rulesGet true "finalwork" := by
  refine ⟨fun st a => ?_, by decide, by decide⟩
  unfold analyzeRows
  have h : effectiveCategory true "finalwork" = effectiveCategory true "quiz_final" := by decide
  rw [h]

/-- Closed instance of claim_C1 at a concrete state and assignment. -/
theorem claim_C1_witness :
    analyzeRows wSt wA "finalwork" true = analyzeRows wSt wA "quiz_final" true :=
  claim_C1.1 wSt wA

/-- C4: the checklist keys of a successful analysis follow the fixed
per-category display order: the three rubric rows first except for
quiz_final, then delivery type, then attempts (omitted for forum and
quiz_final), then grading type, points, weighting, module, then the
category-specific rows.  Two analyses of the same category over the same
fetched data agree definitionally since analyzeRows is a function of the
state. -/
theorem claim_C4 (st : CanvasState) (a : Assignment) (t : String) (m : Bool)
    (rows : List Row) (h : analyzeRows st a t m = Except.ok rows) :
    rows.map rowKey =
      specKeyOrder (effectiveCategory m t)
        (quizDetailsOf st a (effectiveCategory m t)).isSome :=
  analyzeCore_keys h

/-- Closed instance of claim_C4: a concrete forum run produces exactly the
specified key order. -/
theorem claim_C4_witness :
    analyzeRows wSt wA "forum" false = Except.ok (okRows (analyzeRows wSt wA "forum" false)) ∧
      (okRows (analyzeRows wSt wA "forum" false)).map rowKey = specKeyOrder "forum" false := by
  refine ⟨rfl, ?_⟩
  exact claim_C4 wSt wA "forum" false _ rfl

/-- C5: over a chain of successful pages linked by next links, paginated
canvas_request returns the concatenation of the page item lists in page
order, and non-paginated canvas_request returns the first response body
verbatim. -/
theorem claim_C5 (method : String) (hm : supportedMethod method = true) :
    (∀ (b : List Json) (bodies : List (List Json)),
        canvasRequest method true (chainPages (b :: bodies)) =
          Except.ok (some (Json.arr ((b :: bodies).flatten)))) ∧
      (∀ (body : Json) (hasNext : Bool) (rest : List PageOutcome),
        canvasRequest method false (PageOutcome.success body hasNext :: rest) =
          Except.ok (some body)) := by
  constructor
  · intro b bodies
    unfold canvasRequest
    rw [if_pos hm]
    simpa using canvasRequestLoop_chain bodies b []
  · intro body hasNext rest
    unfold canvasRequest
    rw [if_pos hm]
    rfl

/-- Closed instance of claim_C5: 3 pages of 2/2/1 items yield the 5 items in
page order, and a non-paginated call returns the first body. -/
theorem claim_C5_witness :
    canvasRequest "get" true
        (chainPages [[Json.num 1, Json.num 2], [Json.num 3, Json.num 4], [Json.num 5]]) =
      Except.ok (some (Json.arr [Json.num 1, Json.num 2, Json.num 3, Json.num 4, Json.num 5])) ∧
      canvasRequest "get" false [PageOutcome.success (Json.str "body") false] =
        Except.ok (some (Json.str "body")) := by
  constructor
  · exact (claim_C5 "get" (by decide)).1 [Json.num 1, Json.num 2]
      [[Json.num 3, Json.num 4], [Json.num 5]]
  · exact (claim_C5 "get" (by decide)).2 (Json.str "body") false []

/-- C10: paginated canvas_request never returns a partial accumulation: a
failing page after any run of successful pages discards everything
accumulated and yields None, and an unsupported method yields None without
any page being consumed. -/
theorem claim_C10 :
    (∀ (method : String) (bodies : List (List Json)) (bad : PageOutcome)
        (rest : List PageOutcome), isFailurePage bad = true →
        canvasRequest method true (goodPages bodies ++ bad :: rest) = Except.ok none) ∧
      (∀ (method : String) (pages : List PageOutcome), supportedMethod method = false →
        canvasRequest method true pages = Except.ok none) := by
  constructor
  · intro method bodies bad rest hbad
    unfold canvasRequest
    by_cases hmeth : supportedMethod method = true
    · rw [if_pos hmeth]
      exact canvasRequestLoop_failure bad rest hbad bodies []
    · rw [if_neg hmeth]
  · intro method pages hmeth
    unfold canvasRequest
    rw [if_neg (by simp [hmeth])]

/-- Closed instance of claim_C10: two good pages followed by an HTTP 500 are
discarded entirely, and a PATCH request returns None. -/
theorem claim_C10_witness :
    canvasRequest "get" true
        (goodPages [[Json.num 1, Json.num 2], [Json.num 3]] ++
          [PageOutcome.httpError 500 "err"]) = Except.ok none ∧
      canvasRequest "patch" true [] = Except.ok none := by
  constructor
  · exact claim_C10.1 "get" [[Json.num 1, Json.num 2], [Json.num 3]]
      (PageOutcome.httpError 500 "err") [] rfl
  · exact claim_C10.2 "patch" [] (by decide)

/-- C8 (amended): clean_string is idempotent up to re-stripping: a second
pass equals the strip stage applied to the first pass, so idempotence holds
exactly when the first pass result carries no leading or trailing
whitespace.  It can fail to: removing a disallowed character next to edge
whitespace exposes whitespace that only the second pass trims. -/
theorem claim_C8 (s : String) :
    clean_string (clean_string s) = stripString (clean_string s) :=
  congrArg String.mk (cleanChars_of_clean s.data)

/-- Closed instance of claim_C8 at a concrete accented input. -/
theorem claim_C8_witness :
    clean_string (clean_string "Módulo 1: Foro Académico") =
      stripString (clean_string "Módulo 1: Foro Académico") :=
  claim_C8 "Módulo 1: Foro Académico"

/-- C8 counterexample: clean_string is not idempotent as claimed; on "@ a"
the first pass removes "@" and leaves " a" with leading whitespace, and the
second pass strips it. -/
theorem claim_C8_counterexample :
    clean_string "@ a" = " a" ∧ clean_string (clean_string "@ a") = "a" ∧
      clean_string (clean_string "@ a") ≠ clean_string "@ a" :=
  ⟨rfl, rfl, by decide⟩

/-- C2 (amended): no exception escapes analyze_assignment provided the
module lookup succeeds with a weight and a name, points_possible is present,
the assignment has a name, and (for teamwork) the team fetches succeed; a
missing rubric then renders the three rubric rows as definite fails while a
checklist is still returned.  When one of these lookups yields None the
analysis raises instead (see the counterexample). -/
theorem claim_C2 (st : CanvasState) (a : Assignment) (t : String) (m : Bool)
    (p : Int) (mi : ModuleInfo) (w : Int) (mn an : String)
    (hp : a.points_possible = some p)
    (hmi : get_module_name st a.assignment_group_id = some mi)
    (hw : mi.weight = some w) (hmn : mi.name = some mn) (han : a.name = some an)
    (hteam : (effectiveCategory m t == "teamwork") = true →
      (check_team_assignments st).isSome ∧ (check_group_categories st).isSome) :
    ∃ rows, analyzeRows st a t m = Except.ok rows ∧
      (a.rubric_settings = none →
        (effectiveCategory m t != "quiz_final") = true →
        rows.take 3 =
          [("Tiene rúbrica", Json.str "Sin rúbrica", "🟥"),
           ("Puntos rúbrica", Json.str "N/A", "🟥"),
           ("Usa rúbrica para calificar", Json.str "No", "🟥")]) := by
  obtain ⟨rows, hrows⟩ :=
    analyzeCore_ok_of st a (effectiveCategory m t) m hp hmi hw hmn han hteam
  refine ⟨rows, hrows, ?_⟩
  intro hrs hq
  obtain ⟨p2, mi2, w2, mn2, an2, _, _, _, _, _, hteam2, hnot2⟩ := analyzeCore_ok_inv hrows
  have hrr : rubricRows (get_rubric_details a) (effectiveCategory m t) =
      [("Tiene rúbrica", Json.str "Sin rúbrica", "🟥"),
       ("Puntos rúbrica", Json.str "N/A", "🟥"),
       ("Usa rúbrica para calificar", Json.str "No", "🟥")] := by
    have hrd : get_rubric_details a =
        { has_rubric := false, rubric_points := none,
          rubric_used_for_grading := some false, name_field := none } := by
      unfold get_rubric_details
      rw [hrs]
    rw [hrd]
    unfold rubricRows
    rw [if_pos hq]
    rfl
  by_cases ht : (effectiveCategory m t == "teamwork") = true
  · obtain ⟨to_, gcc, _, _, hr⟩ := hteam2 ht
    subst hr
    rw [hrr]
    rfl
  · have hr := hnot2 (eq_false_of_ne_true ht)
    subst hr
    rw [hrr]
    rfl

/-- Closed instance of claim_C2: a forum assignment without a rubric is
analyzed without an exception and its three rubric rows are definite fails. -/
theorem claim_C2_witness :
    ∃ rows, analyzeRows wSt wA2 "forum" false = Except.ok rows ∧
      (wA2.rubric_settings = none →
        (effectiveCategory false "forum" != "quiz_final") = true →
        rows.take 3 =
          [("Tiene rúbrica", Json.str "Sin rúbrica", "🟥"),
           ("Puntos rúbrica", Json.str "N/A", "🟥"),
           ("Usa rúbrica para calificar", Json.str "No", "🟥")]) :=
  claim_C2 wSt wA2 "forum" false 100 ⟨some "Foro Académico", some 20, some 1⟩ 20
    "Foro Académico" "Foro Académico" rfl rfl rfl rfl rfl
    (fun h => absurd h (by decide))

/-- C2 counterexample: with every assignment field present but a failing
module fetch, analyze_assignment raises a TypeError instead of returning a
checklist of definite-fail rows. -/
theorem claim_C2_counterexample :
    get_module_name c2St wA.assignment_group_id = none ∧
      analyzeRows c2St wA "forum" false =
        Except.error "TypeError: NoneType is not subscriptable (module_info)" :=
  ⟨rfl, rfl⟩

/-- C3 (amended): an unknown category yields the empty rule set; the points
and weighting rows then always fail, while the delivery and attempts rows
fail exactly when their actual value is present and pass when it is missing
(None compared with None). -/
theorem claim_C3 (st : CanvasState) (a : Assignment) (t : String) (m : Bool)
    (rows : List Row)
    (h1 : (t == "forum") = false) (h2 : (t == "finalwork") = false)
    (h3 : (t == "quiz_final") = false) (h4 : (t == "teamwork") = false)
    (h : analyzeRows st a t m = Except.ok rows) :
    rulesGet m t = {} ∧
      ∃ (p w : Int) (mn an : String), a.points_possible = some p ∧
        rows = rubricRows (get_rubric_details a) t ++
          [("Tipo de entrega", jsonOfSub a.submission_types,
            glyph (a.submission_types == none)),
           ("Intentos permitidos", attemptValue a,
            glyph (a.allowed_attempts == none)),
           ("Tipo de calificación",
            Json.str (if a.grading_type == some "points" then "Puntos" else "Otro"),
            glyph (a.grading_type == some "points")),
           ("Puntos posibles", Json.str (toString p), "🟥"),
           ("Ponderación", Json.str (toString w ++ "%"), "🟥"),
           ("Módulo", Json.str mn, glyph (clean_string mn == clean_string an))] := by
  have heff : effectiveCategory m t = t := by
    simp [effectiveCategory, h2]
  unfold analyzeRows at h
  rw [heff] at h
  have hrules : rulesGet m t = {} := by
    simp [rulesGet, h1, h2, h3, h4]
  refine ⟨hrules, ?_⟩
  obtain ⟨p, mi, w, mn, an, hp, hmi, hw, hmn, han, _, hnotB⟩ := analyzeCore_ok_inv h
  have hr := hnotB h4
  refine ⟨p, w, mn, an, hp, ?_⟩
  subst hr
  rw [hrules]
  have hatt : (t != "forum" && t != "quiz_final") = true := by
    simp [bne, h1, h3]
  unfold attemptRows
  rw [if_pos hatt]
  unfold quizRowsOf
  rw [if_neg (by simp [h3])]
  unfold deliveryRow midRows
  rw [hp]
  simp [glyph]

/-- Closed instance of claim_C3 at a concrete unknown category "foo" with
submission_types and allowed_attempts missing. -/
theorem claim_C3_witness :
    rulesGet false "foo" = {} ∧
      ∃ (p w : Int) (mn an : String), c3A.points_possible = some p ∧
        okRows (analyzeRows wSt c3A "foo" false) =
          rubricRows (get_rubric_details c3A) "foo" ++
          [("Tipo de entrega", jsonOfSub c3A.submission_types,
            glyph (c3A.submission_types == none)),
           ("Intentos permitidos", attemptValue c3A,
            glyph (c3A.allowed_attempts == none)),
           ("Tipo de calificación",
            Json.str (if c3A.grading_type == some "points" then "Puntos" else "Otro"),
            glyph (c3A.grading_type == some "points")),
           ("Puntos posibles", Json.str (toString p), "🟥"),
           ("Ponderación", Json.str (toString w ++ "%"), "🟥"),
           ("Módulo", Json.str mn, glyph (clean_string mn == clean_string an))] :=
  claim_C3 wSt c3A "foo" false (okRows (analyzeRows wSt c3A "foo" false))
    rfl rfl rfl rfl rfl

/-- C3 counterexample: with the unknown category "foo" and submission_types
absent, the delivery-type comparison row renders as pass (None equals None),
so not every comparison row fails. -/
theorem claim_C3_counterexample :
    (okRows (analyzeRows wSt c3A "foo" false))[3]? =
      some ("Tipo de entrega", Json.null, "✅") := rfl

/-- C6 (amended): when the group-category list is fetched non-empty and
holds "Equipo de trabajo", the group list is fetched non-empty, and the user
list is fetched non-empty, an empty derived student set yields all_assigned
true with an empty unassigned list.  When the fetched user list itself is
empty the resolver instead returns None (see the counterexample). -/
theorem claim_C6 (st : CanvasState) (gcs : List GroupCategory)
    (equipo : GroupCategory) (groups : List CanvasGroup) (users : List User)
    (h1 : st.groupCategories = some gcs) (h2 : gcs.isEmpty = false)
    (h3 : gcs.find? (fun (gc : GroupCategory) => gc.name == "Equipo de trabajo") = some equipo)
    (h4 : st.groupsOf equipo.id = some groups) (h5 : groups.isEmpty = false)
    (h6 : st.users = some users) (h7 : users.isEmpty = false)
    (h8 : studentPairs users = []) :
    ∃ r, check_team_assignments st = some r ∧ r.all_assigned = true ∧
      r.unassigned_students = [] := by
  unfold check_team_assignments
  simp only [h1, h2, h3, h4, h5, h6, h7, Bool.false_eq_true, if_false]
  refine ⟨_, rfl, ?_, ?_⟩
  · show (unassignedIds st groups (studentPairs users)).isEmpty = true
    rw [h8]
    rfl
  · show (unassignedIds st groups (studentPairs users)).filterMap
      (fun uid => dictGet (studentPairs users) uid) = []
    rw [h8]
    rfl

/-- Closed instance of claim_C6: a course whose only user is a teacher has
an empty student set and resolves to all_assigned with nobody unassigned. -/
theorem claim_C6_witness :
    ∃ r, check_team_assignments c6wSt = some r ∧ r.all_assigned = true ∧
      r.unassigned_students = [] :=
  claim_C6 c6wSt [⟨1, "Equipo de trabajo"⟩] ⟨1, "Equipo de trabajo"⟩
    [⟨10, "Equipo 1"⟩] [⟨9, "Docente", some "doc@uni.cl", ["TeacherEnrollment"]⟩]
    rfl rfl rfl rfl rfl rfl rfl rfl

/-- C6 counterexample: with every team-roster fetch succeeding but an empty
fetched user list (so an empty derived student set), check_team_assignments
returns None rather than a report with all_assigned true. -/
theorem claim_C6_counterexample :
    c6St.groupCategories = some [⟨1, "Equipo de trabajo"⟩] ∧
      c6St.groupsOf 1 = some [⟨10, "Equipo 1"⟩] ∧
      c6St.users = some [] ∧ studentPairs [] = [] ∧
      check_team_assignments c6St = none :=
  ⟨rfl, rfl, rfl, rfl, rfl⟩

/-- C7: a group membership whose user id is not in the derived student set
is silently excluded: that id is not among the student keys, never appears
among the unassigned ids (so not in unassigned_students), total_students
counts only the student keys, and the resolver still returns a report. -/
theorem claim_C7 (st : CanvasState) (gcs : List GroupCategory)
    (equipo : GroupCategory) (groups : List CanvasGroup) (users : List User)
    (g : CanvasGroup) (ms : List CanvasMembership) (mem : CanvasMembership) (u : Nat)
    (h1 : st.groupCategories = some gcs) (h2 : gcs.isEmpty = false)
    (h3 : gcs.find? (fun (gc : GroupCategory) => gc.name == "Equipo de trabajo") = some equipo)
    (h4 : st.groupsOf equipo.id = some groups) (h5 : groups.isEmpty = false)
    (h6 : st.users = some users) (h7 : users.isEmpty = false)
    (hg : g ∈ groups) (hms : st.membershipsOf g.id = some ms) (hmem : mem ∈ ms)
    (hu : mem.user_id = some u)
    (hstaff : dictHas (studentPairs users) u = false) :
    ∃ r, check_team_assignments st = some r ∧
      u ∉ dictKeys (studentPairs users) ∧
      u ∉ unassignedIds st groups (studentPairs users) ∧
      r.total_students = some (dictKeys (studentPairs users)).length := by
  have hkeys : u ∉ dictKeys (studentPairs users) := by
    intro hin
    have hmap : u ∈ (studentPairs users).map (fun p => p.1) := List.mem_dedup.mp hin
    obtain ⟨pair, hpair, hfst⟩ := List.mem_map.mp hmap
    have : dictHas (studentPairs users) u = true :=
      List.any_eq_true.mpr ⟨pair, hpair, by simp [hfst]⟩
    rw [hstaff] at this
    exact Bool.noConfusion this
  have hunassigned : u ∉ unassignedIds st groups (studentPairs users) := by
    intro hin
    exact hkeys (List.mem_filter.mp hin).1
  unfold check_team_assignments
  simp only [h1, h2, h3, h4, h5, h6, h7, Bool.false_eq_true, if_false]
  exact ⟨_, rfl, hkeys, hunassigned, rfl⟩

/-- Closed instance of claim_C7: a teacher sitting in a group membership
list is excluded from team accounting. -/
theorem claim_C7_witness :
    ∃ r, check_team_assignments c7St = some r ∧
      2 ∉ dictKeys (studentPairs [⟨1, "Alumna", some "al@uni.cl", ["student"]⟩,
        ⟨2, "Docente", some "doc@uni.cl", ["teacher"]⟩]) ∧
      2 ∉ unassignedIds c7St [⟨10, "Equipo 1"⟩]
        (studentPairs [⟨1, "Alumna", some "al@uni.cl", ["student"]⟩,
          ⟨2, "Docente", some "doc@uni.cl", ["teacher"]⟩]) ∧
      r.total_students = some (dictKeys (studentPairs
        [⟨1, "Alumna", some "al@uni.cl", ["student"]⟩,
         ⟨2, "Docente", some "doc@uni.cl", ["teacher"]⟩])).length :=
  claim_C7 c7St [⟨5, "Equipo de trabajo"⟩] ⟨5, "Equipo de trabajo"⟩
    [⟨10, "Equipo 1"⟩]
    [⟨1, "Alumna", some "al@uni.cl", ["student"]⟩,
     ⟨2, "Docente", some "doc@uni.cl", ["teacher"]⟩]
    ⟨10, "Equipo 1"⟩ [⟨some 1⟩, ⟨some 2⟩] ⟨some 2⟩ 2
    rfl rfl rfl rfl rfl rfl rfl (by simp) rfl (by simp) rfl rfl

/-- C9: the quiz detail fetch is consulted only when the (post-remap)
category is quiz_final and the assignment carries a quiz_id: otherwise the
analysis result does not depend on the quiz responses at all; when the fetch
is due but fails, the six quiz rows are absent and the remaining checklist
is still produced; when it succeeds, the six quiz rows are present. -/
theorem claim_C9 :
    (∀ (st : CanvasState) (a : Assignment) (t : String) (m : Bool)
        (f g : Nat → Option QuizResp),
        (t == "quiz_final" && a.quiz_id.isSome) = false →
        analyzeCore { st with quizzes := f } a t m =
          analyzeCore { st with quizzes := g } a t m) ∧
      (∀ (st : CanvasState) (a : Assignment) (m : Bool) (qid : Nat)
          (p : Int) (mi : ModuleInfo) (w : Int) (mn an : String),
        a.quiz_id = some qid → st.quizzes qid = none →
        a.points_possible = some p →
        get_module_name st a.assignment_group_id = some mi →
        mi.weight = some w → mi.name = some mn → a.name = some an →
        ∃ rows, analyzeCore st a "quiz_final" m = Except.ok rows ∧
          rows.map rowKey = specKeyOrder "quiz_final" false) ∧
      (∀ (st : CanvasState) (a : Assignment) (m : Bool) (qid : Nat) (q : QuizResp)
          (p : Int) (mi : ModuleInfo) (w : Int) (mn an : String),
        a.quiz_id = some qid → st.quizzes qid = some q →
        a.points_possible = some p →
        get_module_name st a.assignment_group_id = some mi →
        mi.weight = some w → mi.name = some mn → a.name = some an →
        ∃ rows, analyzeCore st a "quiz_final" m = Except.ok rows ∧
          rows.map rowKey = specKeyOrder "quiz_final" true) := by
  refine ⟨?_, ?_, ?_⟩
  · intro st a t m f g hcond
    cases st with
    | mk ag gc go us msh qz =>
      have hf : quizDetailsOf ⟨ag, gc, go, us, msh, f⟩ a t = none := by
        simp only [quizDetailsOf, hcond, Bool.false_eq_true, if_false]
      have hg2 : quizDetailsOf ⟨ag, gc, go, us, msh, g⟩ a t = none := by
        simp only [quizDetailsOf, hcond, Bool.false_eq_true, if_false]
      show analyzeCore ⟨ag, gc, go, us, msh, f⟩ a t m =
        analyzeCore ⟨ag, gc, go, us, msh, g⟩ a t m
      unfold analyzeCore
      rw [hf, hg2]
      rfl
  · intro st a m qid p mi w mn an hqid hqz hp hmi hw hmn han
    have hqd : quizDetailsOf st a "quiz_final" = none := by
      simp [quizDetailsOf, hqid, get_quiz_details, hqz]
    obtain ⟨rows, hrows⟩ := analyzeCore_ok_of st a "quiz_final" m hp hmi hw hmn han
      (fun hcontra => absurd hcontra (by decide))
    refine ⟨rows, hrows, ?_⟩
    have hk := analyzeCore_keys hrows
    rwa [hqd] at hk
  · intro st a m qid q p mi w mn an hqid hqz hp hmi hw hmn han
    have hqd : (quizDetailsOf st a "quiz_final").isSome = true := by
      simp [quizDetailsOf, hqid, get_quiz_details, hqz]
    obtain ⟨rows, hrows⟩ := analyzeCore_ok_of st a "quiz_final" m hp hmi hw hmn han
      (fun hcontra => absurd hcontra (by decide))
    refine ⟨rows, hrows, ?_⟩
    have hk := analyzeCore_keys hrows
    rwa [hqd] at hk

/-- Closed instance of claim_C9: a forum analysis is unchanged under any
quiz responses; a quiz_final analysis with a failing quiz fetch succeeds
without the six quiz rows; with a successful fetch the six rows appear. -/
theorem claim_C9_witness :
    analyzeCore { c9St with quizzes := fun _ => none } wA "forum" false =
        analyzeCore { c9St with
          quizzes := fun _ => some ⟨some 1, some 90, some true, none, some true, some 30⟩ }
          wA "forum" false ∧
      (∃ rows, analyzeCore c9St c9A "quiz_final" false = Except.ok rows ∧
        rows.map rowKey = specKeyOrder "quiz_final" false) ∧
      (∃ rows, analyzeCore c9StQ c9A "quiz_final" false = Except.ok rows ∧
        rows.map rowKey = specKeyOrder "quiz_final" true) :=
  ⟨claim_C9.1 c9St wA "forum" false _ _ rfl,
   claim_C9.2.1 c9St c9A false 77 30 ⟨some "Cuestionario Final", some 30, some 2⟩
     30 "Cuestionario Final" "Cuestionario Final" rfl rfl rfl rfl rfl rfl rfl,
   claim_C9.2.2 c9StQ c9A false 77 ⟨some 1, some 90, some true, none, some true, some 30⟩
     30 ⟨some "Cuestionario Final", some 30, some 2⟩
     30 "Cuestionario Final" "Cuestionario Final" rfl rfl rfl rfl rfl rfl rfl⟩
